import Mathlib

/-!
Shallow embedding of `src/platforms/esp/32/clockless_esp32.h`:
the SPI-based `ClocklessController` that encodes pixel color bytes into
waveform symbol bytes (`mOne = 0xf8`, `mZero = 0x80`), maintains a lazily
reallocated frame buffer with a zeroed reset tail, and transmits it over
an SPI bus transaction.

Machine integers (`uint8_t`, `int`) are modelled as `Nat`: every value the
code stores is small and non-negative (byte values, buffer sizes), and no
arithmetic in the source can overflow or go negative.  Heap memory is
modelled as `List Nat`; `led_data == nullptr` as `Option.none`.  The
contents of a fresh `malloc` block are indeterminate in C, so the model
takes the junk fill value as an explicit parameter `junk` and theorems
quantify over it.  SPI side effects are recorded as an event trace.
-/

/-- Source line 109: `static const uint8_t mOne = 0xf8` (H:875 L:375). -/
def mOne : Nat := 0xf8

/-- Source line 111: `static const uint8_t mZero = 0x80` (H:250 L:1000). -/
def mZero : Nat := 0x80

/-- Source line 128: `const int RESET_LENGTH = 10`. -/
def RESET_LENGTH : Nat := 10

/-- Arduino `MSBFIRST` / `LSBFIRST` bit-order constants for `SPISettings`. -/
inductive SPIBitOrder where
  | LSBFIRST : SPIBitOrder
  | MSBFIRST : SPIBitOrder
deriving DecidableEq

/-- `SPI_MODE0` constant (clock polarity 0, phase 0). -/
def SPI_MODE0 : Nat := 0

/-- The `SPISettings(clock, bitOrder, dataMode)` value of source line 172. -/
structure SPISettings where
  clock : Nat
  bitOrder : SPIBitOrder
  dataMode : Nat
deriving DecidableEq

/-- One observable call on the `SPIClass * hspi` bus handle (lines 173-175).
`writeBytes` records the length argument `cur` passed at line 174. -/
inductive BusEvent where
  | beginTransaction : SPISettings → BusEvent
  | writeBytes : Nat → BusEvent
  | endTransaction : BusEvent
deriving DecidableEq

/-- One pixel as seen through `PixelController`: the three scaled,
color-ordered channel bytes returned by `loadAndScale0/1/2`. -/
structure Pixel where
  c0 : Nat
  c1 : Nat
  c2 : Nat
deriving DecidableEq

/-- The 24 `led_data[cur++] = byte & mask ? mOne : mZero` stores per pixel
write, for each channel byte, 8 symbol bytes for masks
0x80, 0x40, 0x20, 0x10, 0x08, 0x04, 0x02, 0x01 (source lines 143-150,
repeated verbatim for channels 1 and 2).  This models one such 8-store
group. -/
def encodeByte (byte : Nat) : List Nat :=
  [if byte &&& 0x80 ≠ 0 then mOne else mZero,
   if byte &&& 0x40 ≠ 0 then mOne else mZero,
   if byte &&& 0x20 ≠ 0 then mOne else mZero,
   if byte &&& 0x10 ≠ 0 then mOne else mZero,
   if byte &&& 0x08 ≠ 0 then mOne else mZero,
   if byte &&& 0x04 ≠ 0 then mOne else mZero,
   if byte &&& 0x02 ≠ 0 then mOne else mZero,
   if byte &&& 0x01 ≠ 0 then mOne else mZero]

/-- One iteration of the `while (pixels.has(1))` loop body (lines 142-168):
`loadAndScale0`, 8 stores, `loadAndScale1`, 8 stores, `loadAndScale2`,
8 stores, in that order. -/
def encodePixel (p : Pixel) : List Nat :=
  encodeByte p.c0 ++ encodeByte p.c1 ++ encodeByte p.c2

/-- The whole `while (pixels.has(1))` loop (lines 141-171): the stores land
at consecutive indices `cur = 0, 1, 2, ...`, so the encode phase writes
exactly this list as the buffer prefix. -/
def encodeFrame : List Pixel → List Nat
  | [] => []
  | p :: ps => encodePixel p ++ encodeFrame ps

/-- The channel bytes the loop consumes from the pixel source, in order
channel 0, channel 1, channel 2 per pixel. -/
def channelBytes : List Pixel → List Nat
  | [] => []
  | p :: ps => p.c0 :: p.c1 :: p.c2 :: channelBytes ps

/-- Controller instance state: `uint8_t *led_data = nullptr` (line 107,
`none` = null) and `int mSize = 0` (line 112). -/
structure CState where
  led_data : Option (List Nat)
  mSize : Nat
deriving DecidableEq

/-- The state after construction: `led_data = nullptr`, `mSize = 0`. -/
def initState : CState := { led_data := none, mSize := 0 }

/-- Source lines 130-138: if `size_needed != mSize`, free the old buffer,
set `mSize = size_needed`, `malloc` a new block, and zero its final
`RESET_LENGTH` bytes.  `malloc = some junk` models a successful
allocation whose `size_needed` bytes initially hold the indeterminate
value `junk`; the zeroing loop (lines 135-137) then makes the block
`replicate (size_needed - RESET_LENGTH) junk ++ replicate RESET_LENGTH 0`.
`malloc = none` models allocation failure: the source then stores the
null result in `led_data` after having already freed the old block
(and the zeroing loop would write through null - undefined behavior);
the model records only the resulting null state. -/
def ensureCapacity (st : CState) (size_needed : Nat) (malloc : Option Nat) : CState :=
  if size_needed ≠ st.mSize then
    { mSize := size_needed,
      led_data := malloc.map fun junk =>
        List.replicate (size_needed - RESET_LENGTH) junk ++ List.replicate RESET_LENGTH 0 }
  else st

/-- Whether a call to `showPixels` on state `st` with this pixel list takes
the reallocation branch: the line 130 condition `size_needed != mSize`
with `size_needed = pixels.size() * 3 * 8 + RESET_LENGTH` (line 129). -/
def reallocates (st : CState) (pixels : List Pixel) : Bool :=
  decide (pixels.length * 3 * 8 + RESET_LENGTH ≠ st.mSize)

/-- Source lines 127-176, `showPixels`, for the successful-malloc path:
compute `size_needed`, run the capacity block (lines 130-138), run the
encode loop filling `led_data[0] .. led_data[cur-1]` with
`encodeFrame pixels` (so `cur = (encodeFrame pixels).length`), then
`beginTransaction(SPISettings(6400000, MSBFIRST, SPI_MODE0))`,
`writeBytes(led_data, cur)`, `endTransaction`.  Returns the new state
and the trace of bus calls.  Bytes of the old buffer past index `cur`
are untouched by the loop, hence `drop cur` of the buffer the capacity
block left in place. -/
def showPixels (st : CState) (junk : Nat) (pixels : List Pixel) :
    CState × List BusEvent :=
  let size_needed := pixels.length * 3 * 8 + RESET_LENGTH
  let st1 := ensureCapacity st size_needed (some junk)
  let encoded := encodeFrame pixels
  let cur := encoded.length
  let led := encoded ++ (st1.led_data.getD []).drop cur
  ({ led_data := some led, mSize := st1.mSize },
   [BusEvent.beginTransaction ⟨6400000, SPIBitOrder.MSBFIRST, SPI_MODE0⟩,
    BusEvent.writeBytes cur,
    BusEvent.endTransaction])

/-- The compile-time template parameters of `ClocklessController`
(line 103): `DATA_PIN, T1, T2, T3, RGB_ORDER, XTRA0, FLIP, WAIT_TIME`.
`EOrder` is modelled as a `Nat` code. -/
structure Config where
  DATA_PIN : Int
  T1 : Int
  T2 : Int
  T3 : Int
  RGB_ORDER : Nat
  XTRA0 : Int
  FLIP : Bool
  WAIT_TIME : Int

/-- Source lines 121-123: `getMaxRefreshRate` returns the literal 400,
reading neither the template configuration nor the instance state. -/
def getMaxRefreshRate (_cfg : Config) (_st : CState) : Nat := 400

/-- Decode map written from the spec sentence "decoding the symbol stream
(ONE_PATTERN/ZERO_PATTERN → bit)": ONE_PATTERN maps to bit 1, anything
else (ZERO_PATTERN) to bit 0. -/
def decodeSymbol (s : Nat) : Nat := if s = mOne then 1 else 0

/-- Spec-side regrouping of 8 bits MSB-first into one byte. -/
def decodeByte (syms : List Nat) : Nat :=
  syms.foldl (fun acc s => 2 * acc + decodeSymbol s) 0

/-- Spec-side decoding of a symbol stream: take 8 symbols at a time,
MSB-first, into one byte each. -/
def decodeStream : List Nat → List Nat
  | s0 :: s1 :: s2 :: s3 :: s4 :: s5 :: s6 :: s7 :: rest =>
      decodeByte [s0, s1, s2, s3, s4, s5, s6, s7] :: decodeStream rest
  | _ => []

/-- Buffer well-formedness between cycles: either the freshly constructed
state (null buffer, size 0), or a buffer of exactly `mSize` bytes whose
final `RESET_LENGTH` bytes are zero. -/
def goodState (st : CState) : Prop :=
  (st.led_data = none ∧ st.mSize = 0) ∨
  (∃ buf, st.led_data = some buf ∧ buf.length = st.mSize ∧
    RESET_LENGTH ≤ st.mSize ∧
    List.drop (st.mSize - RESET_LENGTH) buf = List.replicate RESET_LENGTH 0)

theorem encodeByte_length (b : Nat) : (encodeByte b).length = 8 := rfl

theorem encodePixel_length (p : Pixel) : (encodePixel p).length = 24 := by
  simp [encodePixel, encodeByte]

theorem encodeFrame_length (ps : List Pixel) :
    (encodeFrame ps).length = 24 * ps.length := by
  induction ps with
  | nil => rfl
  | cons p ps ih =>
      simp only [encodeFrame, List.length_append, encodePixel_length, ih,
        List.length_cons]
      ring

theorem mem_encodeByte {b s : Nat} (h : s ∈ encodeByte b) :
    s = mOne ∨ s = mZero := by
  simp only [encodeByte, List.mem_cons, List.not_mem_nil, or_false] at h
  rcases h with h | h | h | h | h | h | h | h <;> subst h <;> split <;> simp

theorem mem_encodeFrame {ps : List Pixel} {s : Nat} (h : s ∈ encodeFrame ps) :
    s = mOne ∨ s = mZero := by
  induction ps with
  | nil => simp [encodeFrame] at h
  | cons p ps ih =>
      simp only [encodeFrame, encodePixel, List.mem_append] at h
      rcases h with ((h | h) | h) | h
      · exact mem_encodeByte h
      · exact mem_encodeByte h
      · exact mem_encodeByte h
      · exact ih h

set_option maxRecDepth 2000 in
theorem decodeByte_encodeByte : ∀ b < 256, decodeByte (encodeByte b) = b := by
  decide

set_option maxRecDepth 2000 in
theorem encodeByte_getD : ∀ b < 256, ∀ i < 8,
    (encodeByte b).getD i 0 = if Nat.testBit b (7 - i) then mOne else mZero := by
  decide

theorem decodeStream_encodeByte (b : Nat) (rest : List Nat) :
    decodeStream (encodeByte b ++ rest) =
      decodeByte (encodeByte b) :: decodeStream rest := rfl

theorem showPixels_state (st : CState) (j : Nat) (ps : List Pixel)
    (h : goodState st) :
    (showPixels st j ps).1 =
      { led_data := some (encodeFrame ps ++ List.replicate RESET_LENGTH 0),
        mSize := ps.length * 3 * 8 + RESET_LENGTH } := by
  simp only [showPixels, ensureCapacity]
  rcases eq_or_ne (ps.length * 3 * 8 + RESET_LENGTH) st.mSize with heq | hne
  · rw [if_neg (by simp [heq])]
    rcases h with ⟨hnone, hzero⟩ | ⟨buf, hbd, hbl, hres, htail⟩
    · exfalso
      rw [← heq] at hzero
      simp [RESET_LENGTH] at hzero
    · have hidx : st.mSize - RESET_LENGTH = (encodeFrame ps).length := by
        rw [encodeFrame_length, ← heq]
        omega
      rw [hbd]
      simp only [Option.getD_some]
      rw [← hidx, htail, heq]
  · rw [if_pos hne]
    simp only [Option.map_some', Option.getD_some]
    have h1 : (List.replicate (ps.length * 3 * 8 + RESET_LENGTH - RESET_LENGTH) j).length
        = (encodeFrame ps).length := by
      simp [encodeFrame_length]
      ring
    rw [List.drop_left' h1]

theorem showPixels_mSize (st : CState) (j : Nat) (ps : List Pixel) :
    (showPixels st j ps).1.mSize = ps.length * 3 * 8 + RESET_LENGTH := by
  simp only [showPixels, ensureCapacity]
  split
  · rfl
  · next h => exact (not_ne_iff.mp h).symm

theorem goodState_initState : goodState initState := Or.inl ⟨rfl, rfl⟩

theorem goodState_showPixels (st : CState) (j : Nat) (ps : List Pixel)
    (h : goodState st) : goodState (showPixels st j ps).1 := by
  rw [showPixels_state st j ps h]
  right
  refine ⟨_, rfl, ?_, ?_, ?_⟩
  · simp only [List.length_append, encodeFrame_length, List.length_replicate]
    ring
  · simp
  · have h1 : (encodeFrame ps).length =
        ps.length * 3 * 8 + RESET_LENGTH - RESET_LENGTH := by
      rw [encodeFrame_length]
      omega
    rw [← h1, List.drop_left]

/-- Claim C1, as stated, is false: the claim says the length passed to the
transmit write is `n*24 + RESET_LENGTH`, but for one pixel the source
passes `cur = 24` to `writeBytes` (line 174), not `34`: the reset tail is
never part of the transmitted length. -/
theorem transmit_length_claim_counterexample :
    (showPixels initState 0 [⟨0, 0, 0⟩]).2 =
      [BusEvent.beginTransaction ⟨6400000, SPIBitOrder.MSBFIRST, SPI_MODE0⟩,
       BusEvent.writeBytes 24,
       BusEvent.endTransaction] ∧
    (24 : Nat) ≠ 1 * 24 + RESET_LENGTH :=
  ⟨rfl, by decide⟩

/-- Claim C1 amended: in every drive cycle the length passed to the
transmit write equals the number of encoded bytes, `n * 24`, for `n`
pixels; the `RESET_LENGTH` reset-tail bytes are not included. -/
theorem transmit_length_is_encoded_bytes (st : CState) (j : Nat)
    (ps : List Pixel) :
    (showPixels st j ps).2 =
      [BusEvent.beginTransaction ⟨6400000, SPIBitOrder.MSBFIRST, SPI_MODE0⟩,
       BusEvent.writeBytes (ps.length * 24),
       BusEvent.endTransaction] := by
  simp only [showPixels, encodeFrame_length]
  rw [Nat.mul_comm]

/-- Claim C2: for every byte value 0-255, encoding produces exactly 8
symbol bytes, MSB-to-LSB, the symbol at position i being `mOne` (0xf8)
iff bit `7 - i` of the byte is 1 and `mZero` (0x80) otherwise. -/
theorem encode_byte_msb_first (b : Nat) (hb : b < 256) :
    (encodeByte b).length = 8 ∧
    ∀ i, i < 8 → (encodeByte b).getD i 0 =
      if Nat.testBit b (7 - i) then mOne else mZero :=
  ⟨encodeByte_length b, fun i hi => encodeByte_getD b hb i hi⟩

theorem encode_byte_msb_first_witness :
    (0xA5 : Nat) < 256 ∧
    ((encodeByte 0xA5).length = 8 ∧
      ∀ i, i < 8 → (encodeByte 0xA5).getD i 0 =
        if Nat.testBit 0xA5 (7 - i) then mOne else mZero) :=
  ⟨by decide, encode_byte_msb_first 0xA5 (by decide)⟩

/-- Claim C6: `getMaxRefreshRate` returns exactly 400 for every template
configuration and every controller state. -/
theorem max_refresh_rate_const (cfg : Config) (st : CState) :
    getMaxRefreshRate cfg st = 400 := rfl

/-- Claim C7: every drive cycle's transmit phase is exactly one
`beginTransaction` with the fixed settings (clock 6400000, MSBFIRST,
SPI_MODE0), one `writeBytes` of the given length, then one
`endTransaction`, identically on every invocation. -/
theorem transmit_trace_shape (st : CState) (j : Nat) (ps : List Pixel) :
    ∃ len, (showPixels st j ps).2 =
      [BusEvent.beginTransaction ⟨6400000, SPIBitOrder.MSBFIRST, SPI_MODE0⟩,
       BusEvent.writeBytes len,
       BusEvent.endTransaction] :=
  ⟨(encodeFrame ps).length, rfl⟩

/-- Claim C9 is right about the requirement and the code violates it: on
allocation failure during the capacity step (old size 34, new size 58),
the old buffer has already been freed and `led_data` holds the null
result, so the prior valid buffer is not retained. -/
theorem alloc_failure_loses_buffer :
    (ensureCapacity { led_data := some (List.replicate 34 0), mSize := 34 }
        58 none).led_data = none ∧
    (ensureCapacity { led_data := some (List.replicate 34 0), mSize := 34 }
        58 none).led_data ≠ some (List.replicate 34 0) :=
  ⟨rfl, by decide⟩

/-- Claim C10: every symbol byte the encoder writes is `mOne = 0xf8` or
`mZero = 0x80`; both are nonzero with bit 7 set, so every encoded byte of
the pixel region is nonzero (zero bytes can occur only in the reset
tail). -/
theorem symbols_are_patterns (b s : Nat) (hs : s ∈ encodeByte b)
    (ps : List Pixel) (t : Nat) (ht : t ∈ encodeFrame ps) :
    (s = mOne ∨ s = mZero) ∧
    mOne ≠ 0 ∧ mZero ≠ 0 ∧
    Nat.testBit mOne 7 = true ∧ Nat.testBit mZero 7 = true ∧
    t ≠ 0 := by
  refine ⟨mem_encodeByte hs, by decide, by decide, by decide, by decide, ?_⟩
  rcases mem_encodeFrame ht with h | h <;> subst h <;> decide

theorem symbols_are_patterns_witness :
    mZero ∈ encodeByte 0 ∧ mOne ∈ encodeFrame [⟨255, 0, 129⟩] ∧
    ((mZero = mOne ∨ mZero = mZero) ∧
      mOne ≠ 0 ∧ mZero ≠ 0 ∧
      Nat.testBit mOne 7 = true ∧ Nat.testBit mZero 7 = true ∧
      mOne ≠ 0) :=
  ⟨by decide, by decide,
    symbols_are_patterns 0 mZero (by decide) [⟨255, 0, 129⟩] mOne (by decide)⟩

/-- Claim C3: after a drive cycle on `n` pixels the frame buffer has length
`n*24 + RESET_LENGTH` (with `RESET_LENGTH` the fixed constant 10) and its
final `RESET_LENGTH` bytes are all zero. -/
theorem drive_cycle_buffer_shape (st : CState) (j : Nat) (ps : List Pixel)
    (h : goodState st) :
    RESET_LENGTH = 10 ∧
    (showPixels st j ps).1.led_data =
      some (encodeFrame ps ++ List.replicate RESET_LENGTH 0) ∧
    (encodeFrame ps ++ List.replicate RESET_LENGTH 0).length =
      ps.length * 24 + RESET_LENGTH ∧
    List.drop (ps.length * 24) (encodeFrame ps ++ List.replicate RESET_LENGTH 0) =
      List.replicate RESET_LENGTH 0 := by
  refine ⟨rfl, ?_, ?_, ?_⟩
  · rw [showPixels_state st j ps h]
  · simp only [List.length_append, encodeFrame_length, List.length_replicate]
    ring
  · have h1 : (encodeFrame ps).length = ps.length * 24 := by
      rw [encodeFrame_length]
      ring
    rw [← h1, List.drop_left]

theorem drive_cycle_buffer_shape_witness :
    goodState initState ∧
    (RESET_LENGTH = 10 ∧
      (showPixels initState 7 [Pixel.mk 255 0 129]).1.led_data =
        some (encodeFrame [Pixel.mk 255 0 129] ++ List.replicate RESET_LENGTH 0) ∧
      (encodeFrame [Pixel.mk 255 0 129] ++ List.replicate RESET_LENGTH 0).length =
        [Pixel.mk 255 0 129].length * 24 + RESET_LENGTH ∧
      List.drop ([Pixel.mk 255 0 129].length * 24)
          (encodeFrame [Pixel.mk 255 0 129] ++ List.replicate RESET_LENGTH 0) =
        List.replicate RESET_LENGTH 0) :=
  ⟨goodState_initState,
    drive_cycle_buffer_shape initState 7 [Pixel.mk 255 0 129] goodState_initState⟩

/-- Claim C4: a cycle reallocates iff its required size differs from the
current size; after a cycle on `ps`, a following cycle reallocates iff
the pixel count changed; when no reallocation happens the reset-tail
bytes of the buffer are preserved unchanged from the old buffer; and
every reallocation leaves the final `RESET_LENGTH` bytes zero. -/
theorem realloc_iff_size_change (st : CState) (j : Nat) (ps qs : List Pixel)
    (old : List Nat) (hold : st.led_data = some old)
    (_hlen : old.length = st.mSize) :
    (reallocates st ps = true ↔
      ps.length * 3 * 8 + RESET_LENGTH ≠ st.mSize) ∧
    (reallocates (showPixels st j ps).1 qs = true ↔ qs.length ≠ ps.length) ∧
    (reallocates st ps = false →
      List.drop (st.mSize - RESET_LENGTH)
          (((showPixels st j ps).1.led_data).getD []) =
        List.drop (st.mSize - RESET_LENGTH) old) ∧
    (reallocates st ps = true →
      List.drop ((showPixels st j ps).1.mSize - RESET_LENGTH)
          (((showPixels st j ps).1.led_data).getD []) =
        List.replicate RESET_LENGTH 0) := by
  refine ⟨by simp [reallocates], ?_, ?_, ?_⟩
  · simp only [reallocates, showPixels_mSize, decide_eq_true_eq]
    omega
  · intro hnr
    have hsz : ps.length * 3 * 8 + RESET_LENGTH = st.mSize := by
      simpa [reallocates] using hnr
    have hcur : (encodeFrame ps).length = st.mSize - RESET_LENGTH := by
      rw [encodeFrame_length]
      omega
    simp only [showPixels, ensureCapacity, if_neg (not_not_intro hsz), hold,
      Option.getD_some]
    rw [List.drop_left' hcur, hcur]
  · intro hr
    have hsz : ps.length * 3 * 8 + RESET_LENGTH ≠ st.mSize := by
      simpa [reallocates] using hr
    have h1 : (List.replicate
        (ps.length * 3 * 8 + RESET_LENGTH - RESET_LENGTH) j).length =
        (encodeFrame ps).length := by
      simp only [List.length_replicate, encodeFrame_length]
      omega
    have h2 : (encodeFrame ps).length =
        ps.length * 3 * 8 + RESET_LENGTH - RESET_LENGTH := by
      rw [encodeFrame_length]
      omega
    simp only [showPixels, ensureCapacity, if_pos hsz, Option.map_some',
      Option.getD_some]
    rw [List.drop_left' h1, ← h2, List.drop_left]

theorem realloc_iff_size_change_witness :
    (reallocates { led_data := some (List.replicate 34 0), mSize := 34 }
        [Pixel.mk 1 2 3] = true ↔
      [Pixel.mk 1 2 3].length * 3 * 8 + RESET_LENGTH ≠ 34) ∧
    (reallocates (showPixels { led_data := some (List.replicate 34 0), mSize := 34 }
        5 [Pixel.mk 1 2 3]).1 [Pixel.mk 0 0 0, Pixel.mk 4 4 4] = true ↔
      [Pixel.mk 0 0 0, Pixel.mk 4 4 4].length ≠ [Pixel.mk 1 2 3].length) ∧
    (reallocates { led_data := some (List.replicate 34 0), mSize := 34 }
        [Pixel.mk 1 2 3] = false →
      List.drop (34 - RESET_LENGTH)
          (((showPixels { led_data := some (List.replicate 34 0), mSize := 34 }
              5 [Pixel.mk 1 2 3]).1.led_data).getD []) =
        List.drop (34 - RESET_LENGTH) (List.replicate 34 0)) ∧
    (reallocates { led_data := some (List.replicate 34 0), mSize := 34 }
        [Pixel.mk 1 2 3] = true →
      List.drop ((showPixels { led_data := some (List.replicate 34 0), mSize := 34 }
            5 [Pixel.mk 1 2 3]).1.mSize - RESET_LENGTH)
          (((showPixels { led_data := some (List.replicate 34 0), mSize := 34 }
              5 [Pixel.mk 1 2 3]).1.led_data).getD []) =
        List.replicate RESET_LENGTH 0) :=
  realloc_iff_size_change { led_data := some (List.replicate 34 0), mSize := 34 }
    5 [Pixel.mk 1 2 3] [Pixel.mk 0 0 0, Pixel.mk 4 4 4]
    (List.replicate 34 0) rfl (by decide)

/-- Claim C5: decoding the encoded symbol stream (mOne to bit 1, mZero to
bit 0, regrouped 8 bits MSB-first per byte) reproduces exactly the scaled
channel bytes consumed from the pixel source, in order channel 0, 1, 2
per pixel. -/
theorem decode_roundtrip (ps : List Pixel)
    (h : ∀ p ∈ ps, p.c0 < 256 ∧ p.c1 < 256 ∧ p.c2 < 256) :
    decodeStream (encodeFrame ps) = channelBytes ps := by
  induction ps with
  | nil => rfl
  | cons p ps ih =>
      have hp := h p (List.mem_cons_self p ps)
      have hrest : ∀ q ∈ ps, q.c0 < 256 ∧ q.c1 < 256 ∧ q.c2 < 256 :=
        fun q hq => h q (List.mem_cons_of_mem p hq)
      show decodeStream (encodePixel p ++ encodeFrame ps) = _
      rw [encodePixel, List.append_assoc, List.append_assoc,
        decodeStream_encodeByte, decodeStream_encodeByte,
        decodeStream_encodeByte,
        decodeByte_encodeByte p.c0 hp.1, decodeByte_encodeByte p.c1 hp.2.1,
        decodeByte_encodeByte p.c2 hp.2.2, ih hrest]
      rfl

theorem decode_roundtrip_witness :
    (∀ p ∈ [Pixel.mk 255 0 129], p.c0 < 256 ∧ p.c1 < 256 ∧ p.c2 < 256) ∧
    decodeStream (encodeFrame [Pixel.mk 255 0 129]) =
      channelBytes [Pixel.mk 255 0 129] :=
  ⟨by decide, decode_roundtrip [Pixel.mk 255 0 129] (by decide)⟩

/-- Claim C8, as stated, is false in its transmit clause: for 0 pixels the
buffer is indeed `RESET_LENGTH` zero bytes, but the transmit write covers
0 bytes (`cur = 0`), not the `RESET_LENGTH`-byte buffer. -/
theorem zero_pixels_claim_counterexample :
    (showPixels initState 5 []).1.led_data =
      some (List.replicate RESET_LENGTH 0) ∧
    (showPixels initState 5 []).2 =
      [BusEvent.beginTransaction ⟨6400000, SPIBitOrder.MSBFIRST, SPI_MODE0⟩,
       BusEvent.writeBytes 0,
       BusEvent.endTransaction] ∧
    (0 : Nat) ≠ RESET_LENGTH :=
  ⟨rfl, rfl, by decide⟩

/-- Claim C8 amended: for 0 pixels the drive cycle produces a buffer of
length exactly `RESET_LENGTH` whose bytes are all zero, and the bus
transaction (begin, write, end) still occurs, but the write length is 0:
the reset-tail bytes are not part of the write. -/
theorem zero_pixels_cycle (st : CState) (j : Nat) (h : goodState st) :
    (showPixels st j []).1.led_data = some (List.replicate RESET_LENGTH 0) ∧
    (showPixels st j []).1.mSize = RESET_LENGTH ∧
    (showPixels st j []).2 =
      [BusEvent.beginTransaction ⟨6400000, SPIBitOrder.MSBFIRST, SPI_MODE0⟩,
       BusEvent.writeBytes 0,
       BusEvent.endTransaction] := by
  refine ⟨?_, ?_, rfl⟩
  · rw [showPixels_state st j [] h]
    simp [encodeFrame]
  · simp [showPixels_mSize]

theorem zero_pixels_cycle_witness :
    goodState initState ∧
    ((showPixels initState 5 []).1.led_data =
      some (List.replicate RESET_LENGTH 0) ∧
    (showPixels initState 5 []).1.mSize = RESET_LENGTH ∧
    (showPixels initState 5 []).2 =
      [BusEvent.beginTransaction ⟨6400000, SPIBitOrder.MSBFIRST, SPI_MODE0⟩,
       BusEvent.writeBytes 0,
       BusEvent.endTransaction]) :=
  ⟨goodState_initState, zero_pixels_cycle initState 5 goodState_initState⟩
